import Mathlib

/-!
Formal model of the fakeyou-client library (src/lib.rs, src/error.rs).

The HTTP transport is external: each network interaction is modelled by the
value it produces, namely either a transport-level failure (a reqwest error,
possibly carrying an HTTP status code) or a response body. Response bodies for
the TTS job poller and the submission endpoints are modelled as JSON values,
and the serde-derived deserializers of the Rust DTOs are embedded explicitly,
so that malformed bodies are part of the model. The polling loops are embedded
as structural recursion over the finite trace of network interaction outcomes
observed by the loop; the pair returned records the result (none when the
trace is exhausted with the loop still running) together with the number of
requests the loop consumed.

Machine integers: the only integer field in the modelled DTOs is the u32
attempt_count, on which the code performs no arithmetic, so it is modelled as
a plain Nat. Uuid generation (Uuid::new_v4) is modelled by an explicit supply
of uuid values threaded through each call, one draw per call.
-/

/-- Model of a JSON value, as produced by serde_json. -/
inductive Json where
  | null : Json
  | bool : Bool → Json
  | str : String → Json
  | num : Int → Json
  | arr : List Json → Json
  | obj : List (String × Json) → Json

/-- First binding of a key in an object field list. -/
def jsonGetField : List (String × Json) → String → Option Json
  | [], _ => none
  | (k, v) :: rest, key => if k = key then some v else jsonGetField rest key

/-- Model of serde_json Value::get on a string key: defined on objects only. -/
def Json.get : Json → String → Option Json
  | .obj fields, key => jsonGetField fields key
  | _, _ => none

/-- Model of uuid::Uuid values; only freshness and equality matter. -/
abbrev Uuid := Nat

/-- Supply of uuid values: the stream of draws the process RNG will produce,
together with the index of the next draw. -/
structure UuidSupply where
  stream : Nat → Uuid
  next : Nat

/-- Model of Uuid::new_v4: take the next value of the supply. -/
def Uuid.new_v4 (s : UuidSupply) : Uuid × UuidSupply :=
  (s.stream s.next, { s with next := s.next + 1 })

/-- enum JobStatus, lib.rs lines 247-256. -/
inductive JobStatus where
  | attemptFailed
  | completeFailure
  | completeSuccess
  | dead
  | pending
  | started
deriving DecidableEq

/-- struct TtsJobState, lib.rs lines 240-245. -/
structure TtsJobState where
  status : JobStatus
  job_token : String
  maybe_public_bucket_wav_audio_path : Option String
deriving DecidableEq

/-- struct TtsJobResponse, lib.rs lines 234-238. -/
structure TtsJobResponse where
  success : Bool
  state : TtsJobState
deriving DecidableEq

/-- struct TtsInferencePayload, lib.rs lines 217-222. -/
structure TtsInferencePayload where
  uuid_idempotency_token : Uuid
  tts_model_token : String
  inference_text : String
deriving DecidableEq

/-- struct TtsInferenceResponse, lib.rs lines 224-232. -/
structure TtsInferenceResponse where
  success : Bool
  error_type : Option String
  error_message : Option String
  error_reason : Option String
  inference_job_token : Option String
  inference_job_token_type : Option String
deriving DecidableEq

/-- struct TtsVoice, lib.rs lines 258-265. -/
structure TtsVoice where
  model_token : String
  tts_model_type : String
  title : String
  ietf_language_tag : String
  ietf_primary_language_subtag : String
deriving DecidableEq

/-- struct UploadFilePayload, lib.rs lines 267-272; the borrowed byte slice is
modelled as a list of bytes (no arithmetic is performed on them). -/
structure UploadFilePayload where
  uuid_idempotency_token : Uuid
  file : List Nat
  source : String
deriving DecidableEq

/-- struct UploadFileResponse, lib.rs lines 274-278. -/
structure UploadFileResponse where
  success : Bool
  upload_token : String
deriving DecidableEq

/-- struct FaceAnimationRequest, lib.rs lines 342-350. -/
structure FaceAnimationRequest where
  inference_category : String
  maybe_model_type : String
  maybe_model_token : Option String
  maybe_model_title : String
  maybe_raw_inference_text : Option String
deriving DecidableEq

/-- struct FaceAnimationStatus, lib.rs lines 352-363. -/
structure FaceAnimationStatus where
  status : JobStatus
  maybe_extra_status_description : Option String
  maybe_assigned_worker : String
  maybe_assigned_cluster : String
  maybe_first_started_at : String
  attempt_count : Nat
  require_keepalive : Bool
  maybe_failure_category : Option String
deriving DecidableEq

/-- struct FaceAnimationJobState, lib.rs lines 331-340. -/
structure FaceAnimationJobState where
  job_token : String
  request : FaceAnimationRequest
  status : FaceAnimationStatus
  maybe_result : Option FaceAnimationRequest
  created_at : String
  updated_at : String
deriving DecidableEq

/-- struct FaceAnimationJobResponse, lib.rs lines 324-329. -/
structure FaceAnimationJobResponse where
  success : Bool
  state : FaceAnimationJobState
deriving DecidableEq

/-- Model of a reqwest::Error: an optional HTTP status code (present for
errors raised by error_for_status) and an underlying cause rendered as a
message (connection failures and body-decoding failures carry no status). -/
structure ReqwestError where
  status : Option Nat
  msg : String
deriving DecidableEq

/-- enum Error, error.rs lines 6-19. InternalError wraps an anyhow cause,
modelled by its message. -/
inductive Error where
  | AuthenticationError
  | TooManyRequestsError
  | TtsJobFailed : String → Error
  | FaceAnimationJobFailed : FaceAnimationJobResponse → Error
  | InternalError : String → Error
deriving DecidableEq

/-- impl From reqwest::Error for Error, error.rs lines 21-40: status 401 maps
to AuthenticationError, 429 to TooManyRequestsError, any other status and the
no-status case map to InternalError wrapping the cause. -/
def Error.fromReqwestError (e : ReqwestError) : Error :=
  match e.status with
  | some 401 => .AuthenticationError
  | some 429 => .TooManyRequestsError
  | some _ => .InternalError e.msg
  | none => .InternalError e.msg

/-- serde deserialization of a required bool field value. -/
def deserializeBool : Option Json → Except String Bool
  | some (.bool b) => .ok b
  | some _ => .error "invalid type: expected a boolean"
  | none => .error "missing field"

/-- serde deserialization of a required string field value. -/
def deserializeStringField : Option Json → Except String String
  | some (.str s) => .ok s
  | some _ => .error "invalid type: expected a string"
  | none => .error "missing field"

/-- serde deserialization of an Option String field: a missing field and an
explicit null both give none. -/
def deserializeOptString : Option Json → Except String (Option String)
  | none => .ok none
  | some .null => .ok none
  | some (.str s) => .ok (some s)
  | some _ => .error "invalid type: expected a string or null"

/-- serde deserialization of JobStatus with rename_all snake_case, lib.rs
lines 247-256: exactly the six snake_case variant names are accepted. -/
def JobStatus.fromString (s : String) : Except String JobStatus :=
  match s with
  | "attempt_failed" => .ok .attemptFailed
  | "complete_failure" => .ok .completeFailure
  | "complete_success" => .ok .completeSuccess
  | "dead" => .ok .dead
  | "pending" => .ok .pending
  | "started" => .ok .started
  | _ => .error ("unknown variant " ++ s)

/-- serde deserialization of a JobStatus field value. -/
def deserializeJobStatus : Option Json → Except String JobStatus
  | some (.str s) => JobStatus.fromString s
  | some _ => .error "invalid type: expected a string"
  | none => .error "missing field"

/-- serde-derived Deserialize for TtsJobState. -/
def deserializeTtsJobState (j : Json) : Except String TtsJobState := do
  let status ← deserializeJobStatus (j.get "status")
  let job_token ← deserializeStringField (j.get "job_token")
  let path ← deserializeOptString (j.get "maybe_public_bucket_wav_audio_path")
  pure { status := status, job_token := job_token,
         maybe_public_bucket_wav_audio_path := path }

/-- serde-derived Deserialize for TtsJobResponse. -/
def deserializeTtsJobResponse (j : Json) : Except String TtsJobResponse := do
  let success ← deserializeBool (j.get "success")
  match j.get "state" with
  | none => .error "missing field state"
  | some st =>
    let state ← deserializeTtsJobState st
    pure { success := success, state := state }

/-- serde-derived Deserialize for TtsInferenceResponse: only the success flag
is required; every other field is an Option and absence gives none. -/
def deserializeTtsInferenceResponse (j : Json) :
    Except String TtsInferenceResponse := do
  let success ← deserializeBool (j.get "success")
  let error_type ← deserializeOptString (j.get "error_type")
  let error_message ← deserializeOptString (j.get "error_message")
  let error_reason ← deserializeOptString (j.get "error_reason")
  let tok ← deserializeOptString (j.get "inference_job_token")
  let tok_type ← deserializeOptString (j.get "inference_job_token_type")
  pure { success := success, error_type := error_type,
         error_message := error_message, error_reason := error_reason,
         inference_job_token := tok, inference_job_token_type := tok_type }

/-- serde-derived Deserialize for TtsVoice. -/
def deserializeTtsVoice (j : Json) : Except String TtsVoice := do
  let model_token ← deserializeStringField (j.get "model_token")
  let tts_model_type ← deserializeStringField (j.get "tts_model_type")
  let title ← deserializeStringField (j.get "title")
  let tag ← deserializeStringField (j.get "ietf_language_tag")
  let subtag ← deserializeStringField (j.get "ietf_primary_language_subtag")
  pure { model_token := model_token, tts_model_type := tts_model_type,
         title := title, ietf_language_tag := tag,
         ietf_primary_language_subtag := subtag }

/-- serde deserialization of Vec TtsVoice from a JSON value. -/
def deserializeTtsVoices : Json → Except String (List TtsVoice)
  | .arr xs => xs.mapM deserializeTtsVoice
  | _ => .error "invalid type: expected a sequence"

/-- serde-derived Deserialize for UploadFileResponse. -/
def deserializeUploadFileResponse (j : Json) :
    Except String UploadFileResponse := do
  let success ← deserializeBool (j.get "success")
  let upload_token ← deserializeStringField (j.get "upload_token")
  pure { success := success, upload_token := upload_token }

/-- const FILE_STORAGE_BASE_URL, lib.rs line 14. -/
def FILE_STORAGE_BASE_URL : String := "https://storage.googleapis.com/vocodes-public"

/-- const BASE_URL, lib.rs line 13. -/
def BASE_URL : String := "https://api.fakeyou.com"

/-- Client::request_file_url, lib.rs lines 100-102: plain string formatting of
the fixed storage base followed by the given path. -/
def request_file_url (public_bucket_media_path : String) : String :=
  FILE_STORAGE_BASE_URL ++ public_bucket_media_path

/-- URL requested by Client::poll_tts_job each iteration, lib.rs line 77. -/
def tts_job_url (inference_job_token : String) : String :=
  BASE_URL ++ "/tts/job/" ++ inference_job_token

/-- URL requested by Client::poll_face_animation_job, lib.rs lines 190-193. -/
def face_animation_job_url (inference_token : String) : String :=
  BASE_URL ++ "/model_inference/job_status/" ++ inference_token

/-- Client::from_login_credentials, lib.rs lines 23-44: the login POST result
(send, then error_for_status) is either a reqwest error, mapped through From,
or a success, in which case the client holding the session is returned. The
response body is not read. -/
def from_login_credentials (transport : Except ReqwestError Unit) :
    Except Error Unit :=
  match transport with
  | .error e => .error (Error.fromReqwestError e)
  | .ok _ => .ok ()

/-- Observable outcome of one Client::tts_inference call: the value returned
to the caller, the payload that was sent, and the uuid supply after the draw
made by the call. -/
structure TtsInferenceCall where
  result : Except Error TtsInferenceResponse
  sent : TtsInferencePayload
  supply : UuidSupply

/-- Client::tts_inference, lib.rs lines 47-67: build the payload with a fresh
uuid (line 53), POST it; the transport outcome (send, error_for_status, json
decode into TtsInferenceResponse) either fails with a reqwest error, mapped
through From, or yields the decoded response, which is returned as-is. The
body decode failure is a reqwest error without status. -/
def tts_inference (s : UuidSupply) (tts_model_token inference_text : String)
    (transport : Except ReqwestError Json) : TtsInferenceCall :=
  let draw := Uuid.new_v4 s
  let payload : TtsInferencePayload :=
    { uuid_idempotency_token := draw.1,
      tts_model_token := tts_model_token,
      inference_text := inference_text }
  { sent := payload
    supply := draw.2
    result :=
      match transport with
      | .error e => .error (Error.fromReqwestError e)
      | .ok body =>
        match deserializeTtsInferenceResponse body with
        | .error msg => .error (Error.fromReqwestError ⟨none, msg⟩)
        | .ok response => .ok response }

/-- Client::voices, lib.rs lines 104-120: fetch the list, decode the body to a
JSON value (a transport or decode failure is a reqwest error mapped through
From), then require the models field, failing with the anyhow message wrapped
in InternalError when it is absent, and deserialize its contents, failing with
a second fixed anyhow message when that fails. -/
def voices (transport : Except ReqwestError Json) :
    Except Error (List TtsVoice) :=
  match transport with
  | .error e => .error (Error.fromReqwestError e)
  | .ok body =>
    match body.get "models" with
    | none =>
      .error (.InternalError "Invalid response body: missing \x27models\x27 property")
    | some models =>
      match deserializeTtsVoices models with
      | .error _ => .error (.InternalError "Failed to deserialize models")
      | .ok response => .ok response

/-- Observable outcome of one Client::upload_audio call. -/
structure UploadAudioCall where
  result : Except Error UploadFileResponse
  sent : UploadFilePayload
  supply : UuidSupply

/-- Client::upload_audio, lib.rs lines 122-139: build the multipart payload
with a fresh uuid (line 125), file bytes and the literal source "file", POST
it; the transport outcome either fails with a reqwest error mapped through
From or yields the decoded UploadFileResponse. -/
def upload_audio (s : UuidSupply) (file : List Nat)
    (transport : Except ReqwestError Json) : UploadAudioCall :=
  let draw := Uuid.new_v4 s
  let payload : UploadFilePayload :=
    { uuid_idempotency_token := draw.1, file := file, source := "file" }
  { sent := payload
    supply := draw.2
    result :=
      match transport with
      | .error e => .error (Error.fromReqwestError e)
      | .ok body =>
        match deserializeUploadFileResponse body with
        | .error msg => .error (Error.fromReqwestError ⟨none, msg⟩)
        | .ok response => .ok response }

/-- One iteration body of Client::poll_tts_job, lib.rs lines 75-96: the
outcome of send, error_for_status and the JSON body, with the body decoded
inside the loop exactly as the json call on line 81. Returns the value the
loop breaks with on this iteration, or none when the iteration falls through
to the sleep and the loop continues. The envelope success flag is tested
before the nested status is examined (lines 83-85). -/
def poll_tts_step (outcome : Except ReqwestError Json) :
    Option (Except Error TtsJobResponse) :=
  match outcome with
  | .error e => some (.error (Error.fromReqwestError e))
  | .ok body =>
    match deserializeTtsJobResponse body with
    | .error msg => some (.error (Error.fromReqwestError ⟨none, msg⟩))
    | .ok response =>
      if response.success = false then
        some (.error (.TtsJobFailed response.state.job_token))
      else
        match response.state.status with
        | .attemptFailed | .pending | .started => none
        | .completeSuccess => some (.ok response)
        | .completeFailure | .dead =>
          some (.error (.TtsJobFailed response.state.job_token))

/-- One iteration body of Client::poll_face_animation_job, lib.rs lines
188-212: the interaction outcome already carries the decoded
FaceAnimationJobResponse. The envelope success flag is tested first (lines
199-201); the nested status sits one level deeper than in the TTS poller
(state.status.status, line 202); on both failure cases the entire response is
carried in the error. -/
def poll_face_step (outcome : Except ReqwestError FaceAnimationJobResponse) :
    Option (Except Error FaceAnimationJobResponse) :=
  match outcome with
  | .error e => some (.error (Error.fromReqwestError e))
  | .ok response =>
    if response.success = false then
      some (.error (.FaceAnimationJobFailed response))
    else
      match response.state.status.status with
      | .attemptFailed | .pending | .started => none
      | .completeSuccess => some (.ok response)
      | .completeFailure | .dead =>
        some (.error (.FaceAnimationJobFailed response))

/-- Runner for the polling loops of lib.rs lines 74-97 and 187-213 over a
finite trace of per-iteration interaction outcomes: apply the loop body to
each outcome in order until it breaks, returning the break value (none when
the trace is exhausted with the loop still polling) together with the number
of requests the loop consumed. -/
def pollLoop {α β : Type} (step : α → Option β) : List α → Option β × Nat
  | [] => (none, 0)
  | x :: rest =>
    match step x with
    | some r => (some r, 1)
    | none =>
      let continuation := pollLoop step rest
      (continuation.1, continuation.2 + 1)

/-- Client::poll_tts_job, lib.rs lines 70-98, as the loop over its iteration
body. The job token argument only shapes the request URL (line 77) and plays
no role in the control flow. -/
def poll_tts_job_run (inference_job_token : String)
    (trace : List (Except ReqwestError Json)) :
    Option (Except Error TtsJobResponse) × Nat :=
  pollLoop poll_tts_step trace

/-- Client::poll_face_animation_job, lib.rs lines 183-214, as the loop over
its iteration body. -/
def poll_face_animation_job_run (inference_token : String)
    (trace : List (Except ReqwestError FaceAnimationJobResponse)) :
    Option (Except Error FaceAnimationJobResponse) × Nat :=
  pollLoop poll_face_step trace

/-- Specification-side classification of the nested status values on which
the polling loops fall through to the next iteration (the first arm of the
match on lib.rs lines 86-87 and 202-203). -/
def JobStatus.isNonTerminal : JobStatus → Bool
  | .attemptFailed | .pending | .started => true
  | .completeSuccess | .completeFailure | .dead => false

/-- Specification-side predicate: a TTS poll interaction outcome on which the
loop proceeds to another iteration, namely a transport success whose body
decodes to a response with the envelope success flag set and a non-terminal
nested status. -/
def isTtsContinueStep : Except ReqwestError Json → Bool
  | .error _ => false
  | .ok body =>
    match deserializeTtsJobResponse body with
    | .error _ => false
    | .ok response => response.success && response.state.status.isNonTerminal

/-- Specification-side predicate: a face-animation poll interaction outcome
on which the loop proceeds to another iteration. -/
def isFaceContinueStep : Except ReqwestError FaceAnimationJobResponse → Bool
  | .error _ => false
  | .ok response => response.success && response.state.status.status.isNonTerminal


/-- Sample TTS job-status response body, as the remote service would send it:
an envelope with a success flag and a nested state. -/
def sampleTtsBody (success : Bool) (status job_token : String) : Json :=
  Json.obj [("success", Json.bool success),
    ("state", Json.obj [("status", Json.str status),
      ("job_token", Json.str job_token),
      ("maybe_public_bucket_wav_audio_path", Json.null)])]

/-- Parsed form of sampleTtsBody. -/
def sampleTtsResponse (success : Bool) (status : JobStatus)
    (job_token : String) : TtsJobResponse :=
  { success := success,
    state := { status := status, job_token := job_token,
               maybe_public_bucket_wav_audio_path := none } }

/-- Sample decoded face-animation job-status response. -/
def sampleFaceResponse (success : Bool) (status : JobStatus) :
    FaceAnimationJobResponse :=
  { success := success,
    state :=
      { job_token := "fa_job_tok",
        request :=
          { inference_category := "face_animation",
            maybe_model_type := "fa",
            maybe_model_token := none,
            maybe_model_title := "model",
            maybe_raw_inference_text := none },
        status :=
          { status := status,
            maybe_extra_status_description := none,
            maybe_assigned_worker := "worker",
            maybe_assigned_cluster := "cluster",
            maybe_first_started_at := "2023-01-01",
            attempt_count := 1,
            require_keepalive := false,
            maybe_failure_category := none },
        maybe_result := none,
        created_at := "2023-01-01",
        updated_at := "2023-01-01" } }

theorem pollLoop_stop {α β : Type} (step : α → Option β) (x : α) (rest : List α)
    (r : β) (h : step x = some r) : pollLoop step (x :: rest) = (some r, 1) := by
  simp [pollLoop, h]

theorem pollLoop_continue {α β : Type} (step : α → Option β) (x : α)
    (rest : List α) (h : step x = none) :
    pollLoop step (x :: rest) =
      ((pollLoop step rest).1, (pollLoop step rest).2 + 1) := by
  simp [pollLoop, h]

theorem pollLoop_all_continue {α β : Type} (step : α → Option β) :
    ∀ tr : List α, (∀ y ∈ tr, step y = none) →
      pollLoop step tr = (none, tr.length) := by
  intro tr
  induction tr with
  | nil => intro _; rfl
  | cons x rest ih =>
    intro h
    rw [pollLoop_continue step x rest (h x (by simp))]
    rw [ih (fun y hy => h y (by simp [hy]))]
    simp

theorem pollLoop_prefix {α β : Type} (step : α → Option β) :
    ∀ (pre tr : List α), (∀ y ∈ pre, step y = none) →
      pollLoop step (pre ++ tr) =
        ((pollLoop step tr).1, (pollLoop step tr).2 + pre.length) := by
  intro pre
  induction pre with
  | nil => intro tr _; simp
  | cons x pre ih =>
    intro tr h
    rw [List.cons_append, pollLoop_continue step x (pre ++ tr) (h x (by simp))]
    rw [ih tr (fun y hy => h y (by simp [hy]))]
    simp [Nat.add_assoc]

theorem pollLoop_exit {α β : Type} (step : α → Option β) :
    ∀ (tr : List α) (res : β) (n : Nat), pollLoop step tr = (some res, n) →
      ∃ pre x rest, tr = pre ++ x :: rest ∧ n = pre.length + 1 ∧
        (∀ y ∈ pre, step y = none) ∧ step x = some res := by
  intro tr
  induction tr with
  | nil => intro res n h; simp [pollLoop] at h
  | cons x rest ih =>
    intro res n h
    cases hx : step x with
    | some r =>
      rw [pollLoop_stop step x rest r hx] at h
      have h1 : some r = some res := congrArg Prod.fst h
      have h2 : (1 : Nat) = n := congrArg Prod.snd h
      obtain rfl : r = res := Option.some.inj h1
      exact ⟨[], x, rest, rfl, by simpa using h2.symm, by simp, hx⟩
    | none =>
      rw [pollLoop_continue step x rest hx] at h
      have h1 : (pollLoop step rest).1 = some res := congrArg Prod.fst h
      have h2 : (pollLoop step rest).2 + 1 = n := congrArg Prod.snd h
      have hrest : pollLoop step rest =
          (some res, (pollLoop step rest).2) := by
        rw [← h1]
      obtain ⟨pre, y, rest2, heq, hn, hpre, hy⟩ :=
        ih res (pollLoop step rest).2 hrest
      refine ⟨x :: pre, y, rest2, ?_, ?_, ?_, hy⟩
      · rw [heq]; rfl
      · simp only [List.length_cons]; omega
      · intro z hz
        rcases List.mem_cons.mp hz with hz | hz
        · rw [hz]; exact hx
        · exact hpre z hz

theorem poll_tts_step_error (e : ReqwestError) :
    poll_tts_step (.error e) = some (.error (Error.fromReqwestError e)) := rfl

theorem poll_tts_step_decode_failure (body : Json) (msg : String)
    (hd : deserializeTtsJobResponse body = .error msg) :
    poll_tts_step (.ok body) =
      some (.error (Error.fromReqwestError ⟨none, msg⟩)) := by
  simp [poll_tts_step, hd]

theorem poll_tts_step_envelope_failure (body : Json) (r : TtsJobResponse)
    (hd : deserializeTtsJobResponse body = .ok r) (hs : r.success = false) :
    poll_tts_step (.ok body) =
      some (.error (.TtsJobFailed r.state.job_token)) := by
  simp [poll_tts_step, hd, hs]

theorem poll_tts_step_terminal_failure (body : Json) (r : TtsJobResponse)
    (hd : deserializeTtsJobResponse body = .ok r) (hs : r.success = true)
    (hst : r.state.status = .completeFailure ∨ r.state.status = .dead) :
    poll_tts_step (.ok body) =
      some (.error (.TtsJobFailed r.state.job_token)) := by
  rcases hst with h | h <;> simp [poll_tts_step, hd, hs, h]

theorem poll_tts_step_success (body : Json) (r : TtsJobResponse)
    (hd : deserializeTtsJobResponse body = .ok r) (hs : r.success = true)
    (hst : r.state.status = .completeSuccess) :
    poll_tts_step (.ok body) = some (.ok r) := by
  simp [poll_tts_step, hd, hs, hst]

theorem poll_tts_step_nonterminal (body : Json) (r : TtsJobResponse)
    (hd : deserializeTtsJobResponse body = .ok r) (hs : r.success = true)
    (hst : r.state.status.isNonTerminal = true) :
    poll_tts_step (.ok body) = none := by
  cases h : r.state.status
  case attemptFailed => simp [poll_tts_step, hd, hs, h]
  case pending => simp [poll_tts_step, hd, hs, h]
  case started => simp [poll_tts_step, hd, hs, h]
  case completeSuccess => rw [h] at hst; simp [JobStatus.isNonTerminal] at hst
  case completeFailure => rw [h] at hst; simp [JobStatus.isNonTerminal] at hst
  case dead => rw [h] at hst; simp [JobStatus.isNonTerminal] at hst

theorem poll_tts_step_none_iff (x : Except ReqwestError Json) :
    poll_tts_step x = none ↔ isTtsContinueStep x = true := by
  cases x with
  | error e => simp [poll_tts_step, isTtsContinueStep]
  | ok body =>
    cases hd : deserializeTtsJobResponse body with
    | error msg => simp [poll_tts_step, isTtsContinueStep, hd]
    | ok r =>
      cases hs : r.success with
      | false => simp [poll_tts_step, isTtsContinueStep, hd, hs]
      | true =>
        cases hst : r.state.status <;>
          simp [poll_tts_step, isTtsContinueStep, hd, hs, hst,
            JobStatus.isNonTerminal]

theorem poll_face_step_error (e : ReqwestError) :
    poll_face_step (.error e) = some (.error (Error.fromReqwestError e)) := rfl

theorem poll_face_step_envelope_failure (r : FaceAnimationJobResponse)
    (hs : r.success = false) :
    poll_face_step (.ok r) = some (.error (.FaceAnimationJobFailed r)) := by
  simp [poll_face_step, hs]

theorem poll_face_step_terminal_failure (r : FaceAnimationJobResponse)
    (hs : r.success = true)
    (hst : r.state.status.status = .completeFailure ∨
      r.state.status.status = .dead) :
    poll_face_step (.ok r) = some (.error (.FaceAnimationJobFailed r)) := by
  rcases hst with h | h <;> simp [poll_face_step, hs, h]

theorem poll_face_step_success (r : FaceAnimationJobResponse)
    (hs : r.success = true) (hst : r.state.status.status = .completeSuccess) :
    poll_face_step (.ok r) = some (.ok r) := by
  simp [poll_face_step, hs, hst]

theorem poll_face_step_nonterminal (r : FaceAnimationJobResponse)
    (hs : r.success = true) (hst : r.state.status.status.isNonTerminal = true) :
    poll_face_step (.ok r) = none := by
  cases h : r.state.status.status
  case attemptFailed => simp [poll_face_step, hs, h]
  case pending => simp [poll_face_step, hs, h]
  case started => simp [poll_face_step, hs, h]
  case completeSuccess => rw [h] at hst; simp [JobStatus.isNonTerminal] at hst
  case completeFailure => rw [h] at hst; simp [JobStatus.isNonTerminal] at hst
  case dead => rw [h] at hst; simp [JobStatus.isNonTerminal] at hst

theorem poll_face_step_none_iff
    (x : Except ReqwestError FaceAnimationJobResponse) :
    poll_face_step x = none ↔ isFaceContinueStep x = true := by
  cases x with
  | error e => simp [poll_face_step, isFaceContinueStep]
  | ok r =>
    cases hs : r.success with
    | false => simp [poll_face_step, isFaceContinueStep, hs]
    | true =>
      cases hst : r.state.status.status <;>
        simp [poll_face_step, isFaceContinueStep, hs, hst,
          JobStatus.isNonTerminal]

theorem isTtsContinueStep_false_of_step_some (x : Except ReqwestError Json)
    (res : Except Error TtsJobResponse) (h : poll_tts_step x = some res) :
    isTtsContinueStep x = false := by
  cases hb : isTtsContinueStep x
  · rfl
  · rw [(poll_tts_step_none_iff x).mpr hb] at h
    exact absurd h (by simp)

theorem isFaceContinueStep_false_of_step_some
    (x : Except ReqwestError FaceAnimationJobResponse)
    (res : Except Error FaceAnimationJobResponse)
    (h : poll_face_step x = some res) : isFaceContinueStep x = false := by
  cases hb : isFaceContinueStep x
  · rfl
  · rw [(poll_face_step_none_iff x).mpr hb] at h
    exact absurd h (by simp)

/-- C1. The claim states that on an envelope failure or a terminal failure
status the poller returns JobFailed carrying the ORIGINAL job token, the one
the poller was called with. The TTS poller in fact carries the job token read
from the response state (lib.rs line 84 and line 92), which need not equal
the token the request was made with: polling token tok_A against a response
whose state carries tok_B produces TtsJobFailed tok_B, not TtsJobFailed
tok_A. -/
theorem c1_counterexample :
    poll_tts_job_run "tok_A" [.ok (sampleTtsBody false "pending" "tok_B")] =
      (some (.error (.TtsJobFailed "tok_B")), 1) ∧
    "tok_B" ≠ "tok_A" := by
  exact ⟨rfl, by decide⟩

/-- C1 (amended). For every poll iteration of either poller: if the envelope
success flag is false — immediately, regardless of the nested status value —
or the nested status is CompleteFailure or Dead, the poller returns the
failure error after exactly this one request; the TTS poller carries the job
token taken from the response state, and the face-animation poller carries
the entire response. -/
theorem c1_amended :
    (∀ (token : String) (rest : List (Except ReqwestError Json))
       (body : Json) (r : TtsJobResponse),
       deserializeTtsJobResponse body = .ok r →
       (r.success = false ∨ (r.success = true ∧
         (r.state.status = .completeFailure ∨ r.state.status = .dead))) →
       poll_tts_job_run token (.ok body :: rest) =
         (some (.error (.TtsJobFailed r.state.job_token)), 1)) ∧
    (∀ (token : String)
       (rest : List (Except ReqwestError FaceAnimationJobResponse))
       (r : FaceAnimationJobResponse),
       (r.success = false ∨ (r.success = true ∧
         (r.state.status.status = .completeFailure ∨
           r.state.status.status = .dead))) →
       poll_face_animation_job_run token (.ok r :: rest) =
         (some (.error (.FaceAnimationJobFailed r)), 1)) := by
  constructor
  · intro token rest body r hd hcase
    have hstep : poll_tts_step (.ok body) =
        some (.error (.TtsJobFailed r.state.job_token)) := by
      rcases hcase with hs | ⟨hs, hst⟩
      · exact poll_tts_step_envelope_failure body r hd hs
      · exact poll_tts_step_terminal_failure body r hd hs hst
    exact pollLoop_stop _ _ _ _ hstep
  · intro token rest r hcase
    have hstep : poll_face_step (.ok r) =
        some (.error (.FaceAnimationJobFailed r)) := by
      rcases hcase with hs | ⟨hs, hst⟩
      · exact poll_face_step_envelope_failure r hs
      · exact poll_face_step_terminal_failure r hs hst
    exact pollLoop_stop _ _ _ _ hstep

/-- C1 (amended) at concrete inputs: an envelope failure with a non-terminal
nested status stops the TTS poller at once with the state job token, and a
Dead status with a successful envelope stops the face-animation poller with
the whole response. -/
theorem c1_witness :
    poll_tts_job_run "job_tok" [.ok (sampleTtsBody false "started" "job_tok")] =
      (some (.error (.TtsJobFailed "job_tok")), 1) ∧
    poll_face_animation_job_run "fa_tok"
      [.ok (sampleFaceResponse true .dead)] =
      (some (.error (.FaceAnimationJobFailed (sampleFaceResponse true .dead))), 1) := by
  constructor
  · exact c1_amended.1 "job_tok" [] (sampleTtsBody false "started" "job_tok")
      (sampleTtsResponse false .started "job_tok") rfl (Or.inl rfl)
  · exact c1_amended.2 "fa_tok" [] (sampleFaceResponse true .dead)
      (Or.inr ⟨rfl, Or.inr rfl⟩)

/-- C2. The claim states the polling loop exits ONLY on a terminal observed
status or a transport/HTTP error. The loop also exits when the envelope
success flag is false even though the nested status is non-terminal and no
transport error occurred: one successful request whose body reports
success false with status pending makes the loop return TtsJobFailed. -/
theorem c2_counterexample :
    poll_tts_job_run "job_tok" [.ok (sampleTtsBody false "pending" "job_tok")] =
      (some (.error (.TtsJobFailed "job_tok")), 1) ∧
    JobStatus.pending.isNonTerminal = true := by
  exact ⟨rfl, rfl⟩

/-- C2 (amended). The polling loop exits only at the first interaction that
is not a continue step — a transport/HTTP/decoding error, an envelope with
success false, or a terminal status; for every response with envelope success
true whose status is Pending, Started or AttemptFailed the loop issues the
next request (AttemptFailed is never treated as failure), and a transport or
HTTP error is propagated to the caller at once, never retried. Stated for
both pollers: (1,5) continue on success plus non-terminal status; (2,6) an
HTTP error step exits immediately with the classified error; (3,7) a trace of
continue steps only is fully consumed with the loop still polling; (4,8) any
exit happens at the first non-continue step of the trace. -/
theorem c2_amended :
    (∀ (token : String) (rest : List (Except ReqwestError Json))
       (body : Json) (r : TtsJobResponse),
       deserializeTtsJobResponse body = .ok r → r.success = true →
       (r.state.status = .pending ∨ r.state.status = .started ∨
         r.state.status = .attemptFailed) →
       poll_tts_job_run token (.ok body :: rest) =
         ((poll_tts_job_run token rest).1,
           (poll_tts_job_run token rest).2 + 1)) ∧
    (∀ (token : String) (rest : List (Except ReqwestError Json))
       (e : ReqwestError),
       poll_tts_job_run token (.error e :: rest) =
         (some (.error (Error.fromReqwestError e)), 1)) ∧
    (∀ (token : String) (tr : List (Except ReqwestError Json)),
       (∀ y ∈ tr, isTtsContinueStep y = true) →
       poll_tts_job_run token tr = (none, tr.length)) ∧
    (∀ (token : String) (tr : List (Except ReqwestError Json))
       (res : Except Error TtsJobResponse) (n : Nat),
       poll_tts_job_run token tr = (some res, n) →
       ∃ pre x rest, tr = pre ++ x :: rest ∧ n = pre.length + 1 ∧
         (∀ y ∈ pre, isTtsContinueStep y = true) ∧
         isTtsContinueStep x = false) ∧
    (∀ (token : String)
       (rest : List (Except ReqwestError FaceAnimationJobResponse))
       (r : FaceAnimationJobResponse),
       r.success = true →
       (r.state.status.status = .pending ∨ r.state.status.status = .started ∨
         r.state.status.status = .attemptFailed) →
       poll_face_animation_job_run token (.ok r :: rest) =
         ((poll_face_animation_job_run token rest).1,
           (poll_face_animation_job_run token rest).2 + 1)) ∧
    (∀ (token : String)
       (rest : List (Except ReqwestError FaceAnimationJobResponse))
       (e : ReqwestError),
       poll_face_animation_job_run token (.error e :: rest) =
         (some (.error (Error.fromReqwestError e)), 1)) ∧
    (∀ (token : String)
       (tr : List (Except ReqwestError FaceAnimationJobResponse)),
       (∀ y ∈ tr, isFaceContinueStep y = true) →
       poll_face_animation_job_run token tr = (none, tr.length)) ∧
    (∀ (token : String)
       (tr : List (Except ReqwestError FaceAnimationJobResponse))
       (res : Except Error FaceAnimationJobResponse) (n : Nat),
       poll_face_animation_job_run token tr = (some res, n) →
       ∃ pre x rest, tr = pre ++ x :: rest ∧ n = pre.length + 1 ∧
         (∀ y ∈ pre, isFaceContinueStep y = true) ∧
         isFaceContinueStep x = false) := by
  refine ⟨?_, ?_, ?_, ?_, ?_, ?_, ?_, ?_⟩
  · intro token rest body r hd hs hst
    have hn : r.state.status.isNonTerminal = true := by
      rcases hst with h | h | h <;> simp [JobStatus.isNonTerminal, h]
    exact pollLoop_continue _ _ _ (poll_tts_step_nonterminal body r hd hs hn)
  · intro token rest e
    exact pollLoop_stop _ _ _ _ (poll_tts_step_error e)
  · intro token tr h
    exact pollLoop_all_continue _ tr
      (fun y hy => (poll_tts_step_none_iff y).mpr (h y hy))
  · intro token tr res n h
    obtain ⟨pre, x, rest, heq, hn, hpre, hx⟩ := pollLoop_exit _ tr res n h
    exact ⟨pre, x, rest, heq, hn,
      fun y hy => (poll_tts_step_none_iff y).mp (hpre y hy),
      isTtsContinueStep_false_of_step_some x res hx⟩
  · intro token rest r hs hst
    have hn : r.state.status.status.isNonTerminal = true := by
      rcases hst with h | h | h <;> simp [JobStatus.isNonTerminal, h]
    exact pollLoop_continue _ _ _ (poll_face_step_nonterminal r hs hn)
  · intro token rest e
    exact pollLoop_stop _ _ _ _ (poll_face_step_error e)
  · intro token tr h
    exact pollLoop_all_continue _ tr
      (fun y hy => (poll_face_step_none_iff y).mpr (h y hy))
  · intro token tr res n h
    obtain ⟨pre, x, rest, heq, hn, hpre, hx⟩ := pollLoop_exit _ tr res n h
    exact ⟨pre, x, rest, heq, hn,
      fun y hy => (poll_face_step_none_iff y).mp (hpre y hy),
      isFaceContinueStep_false_of_step_some x res hx⟩

/-- C2 (amended) at concrete inputs: an AttemptFailed response keeps the loop
polling, a 429 error exits at once with the classified error, a trace of
pending responses is fully consumed without exit, and an exit trace
decomposes as a continue prefix followed by a non-continue step; likewise for
the face-animation poller. -/
theorem c2_witness :
    (poll_tts_job_run "t" [.ok (sampleTtsBody true "attempt_failed" "t")] =
      ((poll_tts_job_run "t" []).1, (poll_tts_job_run "t" []).2 + 1)) ∧
    (poll_tts_job_run "t" [.error ⟨some 429, "too many requests"⟩] =
      (some (.error (Error.fromReqwestError ⟨some 429, "too many requests"⟩)), 1)) ∧
    (poll_tts_job_run "t" [.ok (sampleTtsBody true "pending" "t")] =
      (none, [(.ok (sampleTtsBody true "pending" "t") :
        Except ReqwestError Json)].length)) ∧
    (∃ pre x rest,
      ([.ok (sampleTtsBody true "complete_success" "t")] :
        List (Except ReqwestError Json)) = pre ++ x :: rest ∧
      (1 : Nat) = pre.length + 1 ∧
      (∀ y ∈ pre, isTtsContinueStep y = true) ∧
      isTtsContinueStep x = false) ∧
    (poll_face_animation_job_run "f"
      [.ok (sampleFaceResponse true .attemptFailed)] =
      ((poll_face_animation_job_run "f" []).1,
        (poll_face_animation_job_run "f" []).2 + 1)) ∧
    (poll_face_animation_job_run "f" [.error ⟨some 429, "too many requests"⟩] =
      (some (.error (Error.fromReqwestError ⟨some 429, "too many requests"⟩)), 1)) ∧
    (poll_face_animation_job_run "f" [.ok (sampleFaceResponse true .pending)] =
      (none, [(.ok (sampleFaceResponse true .pending) :
        Except ReqwestError FaceAnimationJobResponse)].length)) ∧
    (∃ pre x rest,
      ([.ok (sampleFaceResponse false .pending)] :
        List (Except ReqwestError FaceAnimationJobResponse)) =
        pre ++ x :: rest ∧
      (1 : Nat) = pre.length + 1 ∧
      (∀ y ∈ pre, isFaceContinueStep y = true) ∧
      isFaceContinueStep x = false) := by
  refine ⟨?_, ?_, ?_, ?_, ?_, ?_, ?_, ?_⟩
  · exact c2_amended.1 "t" [] (sampleTtsBody true "attempt_failed" "t")
      (sampleTtsResponse true .attemptFailed "t") rfl rfl (Or.inr (Or.inr rfl))
  · exact c2_amended.2.1 "t" [] ⟨some 429, "too many requests"⟩
  · exact c2_amended.2.2.1 "t" [.ok (sampleTtsBody true "pending" "t")]
      (by intro y hy; rw [List.mem_singleton] at hy; subst hy; rfl)
  · exact c2_amended.2.2.2.1 "t"
      [.ok (sampleTtsBody true "complete_success" "t")]
      (.ok (sampleTtsResponse true .completeSuccess "t")) 1 rfl
  · exact c2_amended.2.2.2.2.1 "f" [] (sampleFaceResponse true .attemptFailed)
      rfl (Or.inr (Or.inr rfl))
  · exact c2_amended.2.2.2.2.2.1 "f" [] ⟨some 429, "too many requests"⟩
  · exact c2_amended.2.2.2.2.2.2.1 "f"
      [.ok (sampleFaceResponse true .pending)]
      (by intro y hy; rw [List.mem_singleton] at hy; subst hy; rfl)
  · exact c2_amended.2.2.2.2.2.2.2 "f" [.ok (sampleFaceResponse false .pending)]
      (.error (.FaceAnimationJobFailed (sampleFaceResponse false .pending))) 1 rfl

/-- C3. For every job-status trace whose first non-continue element is a
successful envelope carrying CompleteSuccess, each poller returns that
success response, and the number of requests it consumed is exactly the
position of that element: no request is issued after CompleteSuccess is
observed, whatever else the trace holds beyond it. -/
theorem c3_theorem :
    (∀ (token : String) (pre rest : List (Except ReqwestError Json))
       (body : Json) (r : TtsJobResponse),
       (∀ y ∈ pre, isTtsContinueStep y = true) →
       deserializeTtsJobResponse body = .ok r → r.success = true →
       r.state.status = .completeSuccess →
       poll_tts_job_run token (pre ++ .ok body :: rest) =
         (some (.ok r), pre.length + 1)) ∧
    (∀ (token : String)
       (pre rest : List (Except ReqwestError FaceAnimationJobResponse))
       (r : FaceAnimationJobResponse),
       (∀ y ∈ pre, isFaceContinueStep y = true) →
       r.success = true → r.state.status.status = .completeSuccess →
       poll_face_animation_job_run token (pre ++ .ok r :: rest) =
         (some (.ok r), pre.length + 1)) := by
  constructor
  · intro token pre rest body r hpre hd hs hst
    have hrun : pollLoop poll_tts_step (.ok body :: rest) = (some (.ok r), 1) :=
      pollLoop_stop _ _ _ _ (poll_tts_step_success body r hd hs hst)
    have := pollLoop_prefix poll_tts_step pre (.ok body :: rest)
      (fun y hy => (poll_tts_step_none_iff y).mpr (hpre y hy))
    rw [poll_tts_job_run, this, hrun, Nat.add_comm]
  · intro token pre rest r hpre hs hst
    have hrun : pollLoop poll_face_step (.ok r :: rest) = (some (.ok r), 1) :=
      pollLoop_stop _ _ _ _ (poll_face_step_success r hs hst)
    have := pollLoop_prefix poll_face_step pre (.ok r :: rest)
      (fun y hy => (poll_face_step_none_iff y).mpr (hpre y hy))
    rw [poll_face_animation_job_run, this, hrun, Nat.add_comm]

/-- C3 at concrete inputs: after one pending response, a CompleteSuccess
response makes each poller return the success after exactly two requests,
even though the trace offers a further response that is never requested. -/
theorem c3_witness :
    poll_tts_job_run "t"
      [.ok (sampleTtsBody true "pending" "t"),
       .ok (sampleTtsBody true "complete_success" "t"),
       .ok (sampleTtsBody true "dead" "t")] =
      (some (.ok (sampleTtsResponse true .completeSuccess "t")), 2) ∧
    poll_face_animation_job_run "f"
      [.ok (sampleFaceResponse true .pending),
       .ok (sampleFaceResponse true .completeSuccess),
       .ok (sampleFaceResponse true .dead)] =
      (some (.ok (sampleFaceResponse true .completeSuccess)), 2) := by
  constructor
  · exact c3_theorem.1 "t" [.ok (sampleTtsBody true "pending" "t")]
      [.ok (sampleTtsBody true "dead" "t")]
      (sampleTtsBody true "complete_success" "t")
      (sampleTtsResponse true .completeSuccess "t")
      (by intro y hy; rw [List.mem_singleton] at hy; subst hy; rfl)
      rfl rfl rfl
  · exact c3_theorem.2 "f" [.ok (sampleFaceResponse true .pending)]
      [.ok (sampleFaceResponse true .dead)]
      (sampleFaceResponse true .completeSuccess)
      (by intro y hy; rw [List.mem_singleton] at hy; subst hy; rfl)
      rfl rfl

/-- C8. For every poll response with a successful envelope and status
CompleteSuccess whose optional media path is absent, the TTS poller still
returns the success result after this one request: the absent path is not
inspected by the loop (lib.rs lines 86-94) and causes no error. -/
theorem c8_theorem (token : String) (rest : List (Except ReqwestError Json))
    (body : Json) (r : TtsJobResponse)
    (hd : deserializeTtsJobResponse body = .ok r) (hs : r.success = true)
    (hst : r.state.status = .completeSuccess)
    (hpath : r.state.maybe_public_bucket_wav_audio_path = none) :
    poll_tts_job_run token (.ok body :: rest) = (some (.ok r), 1) :=
  pollLoop_stop _ _ _ _ (poll_tts_step_success body r hd hs hst)

/-- C8 at a concrete input: a CompleteSuccess body in which the
maybe_public_bucket_wav_audio_path field is entirely absent still decodes and
yields the success result. -/
theorem c8_witness :
    poll_tts_job_run "t"
      [.ok (Json.obj [("success", Json.bool true),
        ("state", Json.obj [("status", Json.str "complete_success"),
          ("job_token", Json.str "t")])])] =
      (some (.ok (sampleTtsResponse true .completeSuccess "t")), 1) :=
  c8_theorem "t" []
    (Json.obj [("success", Json.bool true),
      ("state", Json.obj [("status", Json.str "complete_success"),
        ("job_token", Json.str "t")])])
    (sampleTtsResponse true .completeSuccess "t") rfl rfl rfl rfl

/-- C9. request_file_url is exact string concatenation of the fixed storage
base with the given path — no normalization, no separator insertion, no
network interaction (it is a pure function of its argument) — and on the
spec example path it yields exactly the documented URL. -/
theorem c9_theorem :
    (∀ p : String, request_file_url p =
      "https://storage.googleapis.com/vocodes-public" ++ p) ∧
    request_file_url "/foo/bar.wav" =
      "https://storage.googleapis.com/vocodes-public/foo/bar.wav" := by
  exact ⟨fun p => rfl, by decide⟩

theorem tts_inference_sent (s : UuidSupply) (m t : String)
    (tr : Except ReqwestError Json) :
    (tts_inference s m t tr).sent =
      { uuid_idempotency_token := s.stream s.next,
        tts_model_token := m, inference_text := t } := rfl

theorem tts_inference_supply (s : UuidSupply) (m t : String)
    (tr : Except ReqwestError Json) :
    (tts_inference s m t tr).supply =
      { stream := s.stream, next := s.next + 1 } := rfl

theorem upload_audio_sent (s : UuidSupply) (f : List Nat)
    (tr : Except ReqwestError Json) :
    (upload_audio s f tr).sent =
      { uuid_idempotency_token := s.stream s.next,
        file := f, source := "file" } := rfl

theorem upload_audio_supply (s : UuidSupply) (f : List Nat)
    (tr : Except ReqwestError Json) :
    (upload_audio s f tr).supply =
      { stream := s.stream, next := s.next + 1 } := rfl

/-- C6. The From conversion of reqwest errors maps status 401 to
AuthenticationError and status 429 to TooManyRequestsError (the code name of
the rate-limited case), and every other failure — another status, a
connection failure, a body-decode failure — to InternalError wrapping the
underlying cause; and every modelled request path applies exactly this
conversion to its transport outcome: login, tts_inference, voices,
upload_audio and both pollers. -/
theorem c6_theorem :
    (∀ e : ReqwestError, e.status = some 401 →
      Error.fromReqwestError e = .AuthenticationError) ∧
    (∀ e : ReqwestError, e.status = some 429 →
      Error.fromReqwestError e = .TooManyRequestsError) ∧
    (∀ e : ReqwestError, e.status ≠ some 401 → e.status ≠ some 429 →
      Error.fromReqwestError e = .InternalError e.msg) ∧
    (∀ e : ReqwestError,
      from_login_credentials (.error e) = .error (Error.fromReqwestError e)) ∧
    (∀ (e : ReqwestError) (s : UuidSupply) (m t : String),
      (tts_inference s m t (.error e)).result =
        .error (Error.fromReqwestError e)) ∧
    (∀ e : ReqwestError,
      voices (.error e) = .error (Error.fromReqwestError e)) ∧
    (∀ (e : ReqwestError) (s : UuidSupply) (f : List Nat),
      (upload_audio s f (.error e)).result =
        .error (Error.fromReqwestError e)) ∧
    (∀ (e : ReqwestError) (token : String)
       (rest : List (Except ReqwestError Json)),
      poll_tts_job_run token (.error e :: rest) =
        (some (.error (Error.fromReqwestError e)), 1)) ∧
    (∀ (e : ReqwestError) (token : String)
       (rest : List (Except ReqwestError FaceAnimationJobResponse)),
      poll_face_animation_job_run token (.error e :: rest) =
        (some (.error (Error.fromReqwestError e)), 1)) := by
  refine ⟨?_, ?_, ?_, ?_, ?_, ?_, ?_, ?_, ?_⟩
  · intro e h
    simp [Error.fromReqwestError, h]
  · intro e h
    simp [Error.fromReqwestError, h]
  · intro e h1 h2
    unfold Error.fromReqwestError
    cases hs : e.status with
    | none => rfl
    | some c =>
      rw [hs] at h1 h2
      have hc1 : c ≠ 401 := fun h => h1 (by rw [h])
      have hc2 : c ≠ 429 := fun h => h2 (by rw [h])
      simp [hc1, hc2]
  · intro e; rfl
  · intro e s m t; rfl
  · intro e; rfl
  · intro e s f; rfl
  · intro e token rest
    exact pollLoop_stop _ _ _ _ (poll_tts_step_error e)
  · intro e token rest
    exact pollLoop_stop _ _ _ _ (poll_face_step_error e)

/-- C6 at concrete inputs: a 401 outcome classifies as AuthenticationError, a
429 outcome as TooManyRequestsError, and a 500 outcome as InternalError
wrapping its message. -/
theorem c6_witness :
    Error.fromReqwestError ⟨some 401, "unauthorized"⟩ =
      .AuthenticationError ∧
    Error.fromReqwestError ⟨some 429, "too many requests"⟩ =
      .TooManyRequestsError ∧
    Error.fromReqwestError ⟨some 500, "server error"⟩ =
      .InternalError "server error" := by
  refine ⟨?_, ?_, ?_⟩
  · exact c6_theorem.1 ⟨some 401, "unauthorized"⟩ rfl
  · exact c6_theorem.2.1 ⟨some 429, "too many requests"⟩ rfl
  · exact c6_theorem.2.2.1 ⟨some 500, "server error"⟩ (by decide) (by decide)

/-- C7. Each submission call draws one fresh idempotency token from the uuid
supply (lib.rs lines 53 and 125): as long as the supply stream never repeats
(the idealization of the version-4 random uuid generator), any two submission
calls in sequence — two tts_inference calls, two upload_audio calls, or one
of each — carry distinct uuid_idempotency_token values even for identical
model token and text, or identical file bytes. -/
theorem c7_theorem (s : UuidSupply) (hinj : Function.Injective s.stream)
    (m1 t1 m2 t2 : String) (tr1 tr2 u1 u2 : Except ReqwestError Json)
    (f1 f2 : List Nat) :
    (tts_inference s m1 t1 tr1).sent.uuid_idempotency_token ≠
      (tts_inference (tts_inference s m1 t1 tr1).supply m2 t2
        tr2).sent.uuid_idempotency_token ∧
    (upload_audio s f1 u1).sent.uuid_idempotency_token ≠
      (upload_audio (upload_audio s f1 u1).supply f2
        u2).sent.uuid_idempotency_token ∧
    (tts_inference s m1 t1 tr1).sent.uuid_idempotency_token ≠
      (upload_audio (tts_inference s m1 t1 tr1).supply f1
        u1).sent.uuid_idempotency_token := by
  refine ⟨?_, ?_, ?_⟩ <;>
    · intro heq
      simp only [tts_inference_sent, tts_inference_supply, upload_audio_sent,
        upload_audio_supply] at heq
      exact absurd (hinj heq) (by omega)

/-- C7 at a concrete supply (the identity stream, which is injective) with
identical submission content on both calls. -/
theorem c7_witness :
    (tts_inference ⟨fun n => n, 0⟩ "model" "text"
      (.ok .null)).sent.uuid_idempotency_token ≠
      (tts_inference (tts_inference ⟨fun n => n, 0⟩ "model" "text"
        (.ok .null)).supply "model" "text"
        (.ok .null)).sent.uuid_idempotency_token ∧
    (upload_audio ⟨fun n => n, 0⟩ [7]
      (.ok .null)).sent.uuid_idempotency_token ≠
      (upload_audio (upload_audio ⟨fun n => n, 0⟩ [7] (.ok .null)).supply [7]
        (.ok .null)).sent.uuid_idempotency_token ∧
    (tts_inference ⟨fun n => n, 0⟩ "model" "text"
      (.ok .null)).sent.uuid_idempotency_token ≠
      (upload_audio (tts_inference ⟨fun n => n, 0⟩ "model" "text"
        (.ok .null)).supply [7] (.ok .null)).sent.uuid_idempotency_token :=
  c7_theorem ⟨fun n => n, 0⟩ (fun a b h => h) "model" "text" "model" "text"
    (.ok .null) (.ok .null) (.ok .null) (.ok .null) [7] [7]

/-- C4. The claim states that a transport-successful submission whose body
carries success false, or lacks the job token, yields a distinguishable
InvalidResponseShape error. The code has no such check and no such error
variant: tts_inference returns the decoded body verbatim (lib.rs line 66). A
body that is exactly success false with every other field absent — no job
token — decodes and is returned as Ok, not as any error. -/
theorem c4_counterexample :
    (tts_inference ⟨fun n => n, 0⟩ "model_tok" "hello"
      (.ok (Json.obj [("success", Json.bool false)]))).result =
      .ok { success := false, error_type := none, error_message := none,
            error_reason := none, inference_job_token := none,
            inference_job_token_type := none } := rfl

/-- C4 (amended). When the transport succeeds and the body decodes as a
TtsInferenceResponse, tts_inference returns that response unchanged — its own
success flag and optional job token are not inspected, so an envelope with
success false or an absent token is still returned as Ok; the only
body-shape failure it can report is a body that fails to decode at all
(for instance a missing success field), surfaced as InternalError wrapping
the decode message — the same variant used for non-status transport
failures, distinct only from the status-mapped errors. -/
theorem c4_amended :
    (∀ (s : UuidSupply) (m t : String) (body : Json)
       (r : TtsInferenceResponse),
       deserializeTtsInferenceResponse body = .ok r →
       (tts_inference s m t (.ok body)).result = .ok r) ∧
    (∀ (s : UuidSupply) (m t : String) (body : Json) (msg : String),
       deserializeTtsInferenceResponse body = .error msg →
       (tts_inference s m t (.ok body)).result =
         .error (.InternalError msg)) := by
  constructor
  · intro s m t body r hd
    simp [tts_inference, hd]
  · intro s m t body msg hd
    simp [tts_inference, hd, Error.fromReqwestError]

/-- C4 (amended) at concrete inputs: a success false body with no job token
is returned verbatim, and a body without the success field yields
InternalError with the decode message. -/
theorem c4_witness :
    (tts_inference ⟨fun n => n, 0⟩ "m" "t"
      (.ok (Json.obj [("success", Json.bool false),
        ("error_type", Json.str "validation")]))).result =
      .ok { success := false, error_type := some "validation",
            error_message := none, error_reason := none,
            inference_job_token := none,
            inference_job_token_type := none } ∧
    (tts_inference ⟨fun n => n, 0⟩ "m" "t"
      (.ok (Json.obj []))).result =
      .error (.InternalError "missing field") := by
  constructor
  · exact c4_amended.1 ⟨fun n => n, 0⟩ "m" "t"
      (Json.obj [("success", Json.bool false),
        ("error_type", Json.str "validation")])
      { success := false, error_type := some "validation",
        error_message := none, error_reason := none,
        inference_job_token := none, inference_job_token_type := none } rfl
  · exact c4_amended.2 ⟨fun n => n, 0⟩ "m" "t" (Json.obj [])
      "missing field" rfl

/-- C5. The claim states the missing models field yields a DISTINCT
InvalidResponseShape error, separate from transport-level failures. The Error
enum has no InvalidResponseShape variant: the code returns the anyhow
message inside InternalError (lib.rs lines 114-116) — the very variant every
non-status transport failure is mapped to, as the second conjunct shows — so
the distinction exists only in the wrapped message, not as a separate error
case. The behavioural core holds: an error is returned, never an empty
list. -/
theorem c5_counterexample :
    voices (.ok (Json.obj [("success", Json.bool true)])) =
      .error (.InternalError
        "Invalid response body: missing \x27models\x27 property") ∧
    Error.fromReqwestError ⟨none, "connection reset by peer"⟩ =
      .InternalError "connection reset by peer" := ⟨rfl, rfl⟩

/-- C5 (amended). A catalog response without the models field yields an
explicit error — InternalError with the fixed message about the missing
property, the same variant as other internal failures, distinguished only by
its message — never a silently empty list (the functions are total, so no
panic is possible); when the field is present and its contents deserialize as
a voice list, that list is returned, and contents that fail to deserialize
yield InternalError with the second fixed message. -/
theorem c5_amended :
    (∀ body : Json, body.get "models" = none →
      voices (.ok body) = .error (.InternalError
        "Invalid response body: missing \x27models\x27 property")) ∧
    (∀ (body m : Json) (vs : List TtsVoice), body.get "models" = some m →
      deserializeTtsVoices m = .ok vs → voices (.ok body) = .ok vs) ∧
    (∀ (body m : Json) (msg : String), body.get "models" = some m →
      deserializeTtsVoices m = .error msg →
      voices (.ok body) = .error (.InternalError
        "Failed to deserialize models")) := by
  refine ⟨?_, ?_, ?_⟩
  · intro body h
    simp [voices, h]
  · intro body m vs h hd
    simp [voices, h, hd]
  · intro body m msg h hd
    simp [voices, h, hd]

/-- C5 (amended) at concrete inputs: a body without the models field yields
the missing-property InternalError; a body with a one-voice models list
yields that voice; a body whose models field is not a sequence yields the
deserialize-failure InternalError. -/
theorem c5_witness :
    voices (.ok (Json.obj [("success", Json.bool true)])) =
      .error (.InternalError
        "Invalid response body: missing \x27models\x27 property") ∧
    voices (.ok (Json.obj [("models", Json.arr
      [Json.obj [("model_token", Json.str "tok"),
        ("tts_model_type", Json.str "tacotron2"),
        ("title", Json.str "Voice"),
        ("ietf_language_tag", Json.str "en-US"),
        ("ietf_primary_language_subtag", Json.str "en")]])])) =
      .ok [{ model_token := "tok", tts_model_type := "tacotron2",
             title := "Voice", ietf_language_tag := "en-US",
             ietf_primary_language_subtag := "en" }] ∧
    voices (.ok (Json.obj [("models", Json.str "oops")])) =
      .error (.InternalError "Failed to deserialize models") := by
  refine ⟨?_, ?_, ?_⟩
  · exact c5_amended.1 (Json.obj [("success", Json.bool true)]) rfl
  · exact c5_amended.2.1 (Json.obj [("models", Json.arr
      [Json.obj [("model_token", Json.str "tok"),
        ("tts_model_type", Json.str "tacotron2"),
        ("title", Json.str "Voice"),
        ("ietf_language_tag", Json.str "en-US"),
        ("ietf_primary_language_subtag", Json.str "en")]])])
      (Json.arr [Json.obj [("model_token", Json.str "tok"),
        ("tts_model_type", Json.str "tacotron2"),
        ("title", Json.str "Voice"),
        ("ietf_language_tag", Json.str "en-US"),
        ("ietf_primary_language_subtag", Json.str "en")]])
      [{ model_token := "tok", tts_model_type := "tacotron2",
         title := "Voice", ietf_language_tag := "en-US",
         ietf_primary_language_subtag := "en" }] rfl rfl
  · exact c5_amended.2.2 (Json.obj [("models", Json.str "oops")])
      (Json.str "oops") "invalid type: expected a sequence" rfl rfl

/-- C10. A poll response whose nested status string is none of the six
snake_case variant names fails to decode: JobStatus deserialization rejects
the string (so no JobStatus value is ever produced for it), the whole
TtsJobResponse decode fails with that message, and the poll loop returns the
decode failure — wrapped InternalError through the reqwest conversion — to
the caller after this one request, never treating the response as
still-pending; all modelled functions are total, so no panic is possible. -/
theorem c10_theorem (s : String)
    (h1 : s ≠ "attempt_failed") (h2 : s ≠ "complete_failure")
    (h3 : s ≠ "complete_success") (h4 : s ≠ "dead")
    (h5 : s ≠ "pending") (h6 : s ≠ "started") :
    JobStatus.fromString s = .error ("unknown variant " ++ s) ∧
    (∀ st : JobStatus, JobStatus.fromString s ≠ .ok st) ∧
    (∀ (token job_token : String) (suc : Bool) (path : Json)
       (rest : List (Except ReqwestError Json)),
      deserializeTtsJobResponse (Json.obj [("success", Json.bool suc),
        ("state", Json.obj [("status", Json.str s),
          ("job_token", Json.str job_token),
          ("maybe_public_bucket_wav_audio_path", path)])]) =
        .error ("unknown variant " ++ s) ∧
      poll_tts_job_run token (.ok (Json.obj [("success", Json.bool suc),
        ("state", Json.obj [("status", Json.str s),
          ("job_token", Json.str job_token),
          ("maybe_public_bucket_wav_audio_path", path)])]) :: rest) =
        (some (.error (.InternalError ("unknown variant " ++ s))), 1)) := by
  have hfs : JobStatus.fromString s = .error ("unknown variant " ++ s) := by
    unfold JobStatus.fromString
    split <;> simp_all
  refine ⟨hfs, ?_, ?_⟩
  · intro st
    rw [hfs]
    simp
  · intro token job_token suc path rest
    have hds : deserializeTtsJobResponse (Json.obj [("success", Json.bool suc),
        ("state", Json.obj [("status", Json.str s),
          ("job_token", Json.str job_token),
          ("maybe_public_bucket_wav_audio_path", path)])]) =
        .error ("unknown variant " ++ s) := by
      simp [deserializeTtsJobResponse, deserializeTtsJobState,
        deserializeJobStatus, deserializeBool, Json.get, jsonGetField, hfs,
        Bind.bind, Except.bind]
    refine ⟨hds, ?_⟩
    exact pollLoop_stop _ _ _ _ (poll_tts_step_decode_failure _ _ hds)

/-- C10 at a concrete input: the status string unknown_status is rejected by
the JobStatus decoder, the response decode fails, and the poller surfaces the
failure as InternalError after one request. -/
theorem c10_witness :
    JobStatus.fromString "unknown_status" =
      .error ("unknown variant " ++ "unknown_status") ∧
    deserializeTtsJobResponse (Json.obj [("success", Json.bool true),
      ("state", Json.obj [("status", Json.str "unknown_status"),
        ("job_token", Json.str "t"),
        ("maybe_public_bucket_wav_audio_path", Json.null)])]) =
      .error ("unknown variant " ++ "unknown_status") ∧
    poll_tts_job_run "t" [.ok (Json.obj [("success", Json.bool true),
      ("state", Json.obj [("status", Json.str "unknown_status"),
        ("job_token", Json.str "t"),
        ("maybe_public_bucket_wav_audio_path", Json.null)])])] =
      (some (.error (.InternalError
        ("unknown variant " ++ "unknown_status"))), 1) := by
  have h := c10_theorem "unknown_status" (by decide) (by decide) (by decide)
    (by decide) (by decide) (by decide)
  exact ⟨h.1, (h.2.2 "t" "t" true Json.null []).1,
    (h.2.2 "t" "t" true Json.null []).2⟩
